import Mathlib

/-!
# Gorilla Hub backend — verification of the request router and AI proxy

A shallow embedding of the two serverless handlers of the repository:

* `api/ai.js` — the chat-completion proxy (`aiHandler` below);
* `api/[...supabase].js` — the catch-all router with bearer-token
  authentication, the role gate, the single-row user synchronizer and the
  delete-then-insert collection replacer (`handler` below).

JavaScript values appearing in request/response bodies are modelled by the
type `JVal`; JavaScript truthiness by `jsTruthy`; the `a || b` operator (with
`undefined` rendered as `Option.none`) by `jsOrO`.  Calls to the external
Supabase services are modelled by an explicit `Store` (the persistent tables)
together with an `Oracle` of externally-determined outcomes (identity
resolution results and injected transport failures), so a handler is a pure
function of the request, the oracle and the store.
-/

namespace GorillaHub

/-- JSON-like JavaScript values (request/response bodies, table rows). -/
inductive JVal where
  | null
  | bool (b : Bool)
  | num (n : Int)
  | str (s : String)
  | arr (xs : List JVal)
  | obj (fields : List (String × JVal))

/-- JavaScript property access `v[k]` for a string key: `none` is
`undefined`.  Only objects have (first-listed) string-keyed fields. -/
def JVal.getField : JVal → String → Option JVal
  | .obj fs, k => (fs.find? (fun p => p.1 == k)).map (fun p => p.2)
  | _, _ => none

/-- JavaScript `v[0]`: element 0 of an array, the `"0"` property of an
object, the first character of a string; `undefined` otherwise. -/
def JVal.idx0 : JVal → Option JVal
  | .arr xs => xs.get? 0
  | .obj fs => (fs.find? (fun p => p.1 == "0")).map (fun p => p.2)
  | .str s => (s.toList.head?).map (fun c => JVal.str (String.mk [c]))
  | _ => none

/-- JavaScript truthiness of a defined value. -/
def jsTruthy : JVal → Bool
  | .null => false
  | .bool b => b
  | .num n => n != 0
  | .str s => s != ""
  | .arr _ => true
  | .obj _ => true

/-- JavaScript `a || b` on possibly-undefined values (`none` = `undefined`). -/
def jsOrO (a b : Option JVal) : Option JVal :=
  match a with
  | some v => if jsTruthy v then some v else b
  | none => b

/-- JavaScript `a || d` for a possibly-undefined string `a` and a defined
string default `d` (the empty string is falsy). -/
def jsOrS (a : Option String) (d : String) : String :=
  match a with
  | some s => if s = "" then d else s
  | none => d

/-- `req.body || {}`: an undefined or falsy body is replaced by `{}`. -/
def jsBodyOr (body : Option JVal) : JVal :=
  match body with
  | some v => if jsTruthy v then v else .obj []
  | none => .obj []

/-- `s.startsWith p` on character lists (`listStarts s p` : `s` begins with
`p`), the semantics of JavaScript `String.prototype.startsWith`. -/
def listStarts : List Char → List Char → Bool
  | _, [] => true
  | [], _ :: _ => false
  | a :: s, b :: p => a == b && listStarts s p

/-- JavaScript `s.startsWith(p)`. -/
def strStartsWith (s p : String) : Bool :=
  listStarts s.toList p.toList

/-- Remove the first occurrence of `pat` from a character list; the list is
returned unchanged when `pat` does not occur.  This is the semantics of
JavaScript `s.replace(pat, '')` with a string pattern. -/
def removeFirstL (pat : List Char) : List Char → List Char
  | [] => []
  | c :: s => if listStarts (c :: s) pat then (c :: s).drop pat.length
              else c :: removeFirstL pat s

/-- Index of the first occurrence of `pat` (as `listStarts` of a suffix). -/
def firstOccurL (pat : List Char) : List Char → Option Nat
  | [] => if listStarts [] pat then some 0 else none
  | c :: s => if listStarts (c :: s) pat then some 0
              else (firstOccurL pat s).map (· + 1)

/-- The characters of the literal `'Bearer '` removed by token extraction. -/
def bearerPat : List Char := "Bearer ".toList

/-- `authHeader.replace('Bearer ', '')` — the raw token string. -/
def rawToken (h : String) : String :=
  String.mk (removeFirstL bearerPat h.toList)

/-- `const token = (req.headers.authorization || '').replace('Bearer ', '') || null`. -/
def extractToken (authorization : Option String) : Option String :=
  let h := match authorization with
           | some a => a
           | none => ""
  let t := rawToken h
  if t = "" then none else some t

/-- `url.replace(/^\/api\/?/, '')` — strip the leading `/api` segment and an
optional following slash. -/
def normalizePath (url : String) : String :=
  if strStartsWith url "/api/" then String.mk (url.toList.drop 5)
  else if strStartsWith url "/api" then String.mk (url.toList.drop 4)
  else url

/-- `'a@b'.split('@')[0]` — the part of an email before the first `@`. -/
def localPart (e : String) : String :=
  (e.splitOn "@").headD e

/-- An HTTP response: status code and JSON body. -/
structure Resp where
  status : Nat
  body : JVal

/-- `{ error: m }`. -/
def errBody (m : String) : JVal :=
  .obj [("error", .str m)]

/-- `{ ok: true }`. -/
def okBody : JVal :=
  .obj [("ok", .bool true)]

/-! ## The chat-completion proxy (`api/ai.js`) -/

/-- Outcome of the single upstream `fetch` to the completion provider:
either a non-ok HTTP response whose body text is `text`, or an ok response
whose parsed JSON body is `json`. -/
inductive Upstream where
  | httpErr (text : String)
  | ok (json : JVal)

/-- Result of the AI handler: the response, and whether the upstream
completion provider was called at all. -/
structure AiResult where
  resp : Resp
  calledUpstream : Bool

/-- `json.choices?.[0]?.message?.content` (optional chaining after the first
access). -/
def contentPath (json : JVal) : Option JVal :=
  (((json.getField "choices").bind JVal.idx0).bind
      (fun v => v.getField "message")).bind (fun v => v.getField "content")

/-- `json?.choices?.[0]?.text`. -/
def textPath (json : JVal) : Option JVal :=
  ((json.getField "choices").bind JVal.idx0).bind (fun v => v.getField "text")

/-- Line 39:
`json.choices?.[0]?.message?.content || json?.choices?.[0]?.text || ''`. -/
def replyOf (j : JVal) : JVal :=
  match jsOrO (contentPath j) (jsOrO (textPath j) (some (.str ""))) with
  | some v => v
  | none => .str ""

/-- The handler of `api/ai.js`.  `message` is `(req.body || {}).message`
(`none` = property absent), `apiKey` is `process.env.OPENAI_API_KEY`
(`none` = unset), `up` the outcome of the upstream call.  A parsed upstream
body of JSON `null` makes line 39's non-optional access `json.choices`
throw a `TypeError`, which the surrounding `catch` turns into a 500 with the
runtime's message. -/
def aiHandler (method : String) (message : Option JVal) (apiKey : Option String)
    (up : Upstream) : AiResult :=
  if method != "POST" then ⟨⟨405, errBody "Method not allowed"⟩, false⟩
  else
    match message with
    | some (.str s) =>
      if s = "" then ⟨⟨400, errBody "Invalid message"⟩, false⟩
      else
        match apiKey with
        | some k =>
          if k = "" then ⟨⟨500, errBody "OpenAI key not set in environment variables"⟩, false⟩
          else
            match up with
            | .httpErr text =>
              ⟨⟨500, .obj [("error", .str "OpenAI error"), ("details", .str text)]⟩, true⟩
            | .ok json =>
              match json with
              | .null =>
                ⟨⟨500, errBody "Cannot read properties of null (reading 'choices')"⟩, true⟩
              | j =>
                ⟨⟨200, .obj [("reply", replyOf j), ("raw", j)]⟩, true⟩
        | none => ⟨⟨500, errBody "OpenAI key not set in environment variables"⟩, false⟩
    | _ => ⟨⟨400, errBody "Invalid message"⟩, false⟩

/-! ## The catch-all router (`api/[...supabase].js`) -/

/-- A row of the `users` table: `role` is a string (`""` models a NULL
column, which is falsy like JavaScript `undefined`); a `name` of `none`
models a NULL/omitted column. -/
structure UserRow where
  id : String
  email : JVal
  role : String
  name : Option JVal

/-- The persistent tables of the external data service. -/
structure Store where
  settings : List JVal
  tutorials : List JVal
  cosmetics : List JVal
  users : List UserRow

/-- The identity object returned by `supabaseAdmin.auth.getUser`:
`email` and `fullName` (`user_metadata?.full_name`) may be absent. -/
structure AuthUser where
  id : String
  email : Option String
  fullName : Option String

/-- Outcome of `supabaseAdmin.auth.getUser(token)`: an error, a success
with a null `user`, or a resolved identity. -/
inductive GetUserR where
  | err (msg : String)
  | okNone
  | okUser (u : AuthUser)

/-- A data-service error object (`code`, `message`) as surfaced by the
store client. -/
structure DbError where
  code : String
  message : String

/-- Externally-determined outcomes of the data-service calls a single
request can make: the identity resolution result and, for each store call,
an optionally injected service failure (`none` = the call succeeds and
behaves as the deterministic `Store` model below). -/
structure Oracle where
  getUser : GetUserR
  settingsErr : Option DbError
  tutorialsReadErr : Option DbError
  cosmeticsReadErr : Option DbError
  meSelectErr : Option DbError
  roleSelectErr : Option DbError
  usersUpsertErr : Option DbError
  siteUpsertErr : Option DbError
  siteUpsertData : JVal
  deleteErr : Option DbError
  insertErr : Option DbError

/-- Result of the catch-all handler: the response, the store afterwards,
and the tokens passed to `auth.getUser` (identity resolution). -/
structure HResult where
  resp : Resp
  store : Store
  getUserCalls : List String

/-- `{ error: error.message || error }`: the message when truthy, else the
whole error object. -/
def errBodyOf (e : DbError) : JVal :=
  .obj [("error", if e.message = ""
                  then .obj [("code", .str e.code), ("message", .str e.message)]
                  else .str e.message)]

/-- `data || default` for a possibly-null/absent row. -/
def jsOrData (d : Option JVal) (dflt : JVal) : JVal :=
  match d with
  | some v => if jsTruthy v then v else dflt
  | none => dflt

/-- Modelled from the spec: `from('settings').select('*').limit(1).single()`
against the external store — an injected failure is returned as given;
otherwise an empty table yields the PostgREST "no rows" error `PGRST116`
with null data, and a non-empty table yields its first row. -/
def settingsSingle (o : Oracle) (store : Store) : Option JVal × Option DbError :=
  match o.settingsErr with
  | some e => (none, some e)
  | none =>
    match store.settings.head? with
    | some row => (some row, none)
    | none => (none, some ⟨"PGRST116", "JSON object requested, multiple (or no) rows returned"⟩)

/-- The default site-settings object returned when no row is stored. -/
def siteDefault : JVal :=
  .obj [("title", .str "Gorilla Hub"), ("about", .str "Welcome")]

/-- `GET supabase/data/site` (lines 78–82). -/
def dataSite (o : Oracle) (store : Store) : HResult :=
  let r := settingsSingle o store
  match r.2 with
  | some e =>
    if e.code != "PGRST116" then ⟨⟨500, errBodyOf e⟩, store, []⟩
    else ⟨⟨200, jsOrData r.1 siteDefault⟩, store, []⟩
  | none => ⟨⟨200, jsOrData r.1 siteDefault⟩, store, []⟩

/-- `GET supabase/data/tutorials` (lines 84–88).  Modelled from the spec:
the external read returns the stored rows (the `order('title')` applied by
the store is not modelled; no claim concerns row order). -/
def dataTutorials (o : Oracle) (store : Store) : HResult :=
  match o.tutorialsReadErr with
  | some e => ⟨⟨500, errBodyOf e⟩, store, []⟩
  | none => ⟨⟨200, .arr store.tutorials⟩, store, []⟩

/-- `GET supabase/data/cosmetics` (lines 90–94); as for tutorials. -/
def dataCosmetics (o : Oracle) (store : Store) : HResult :=
  match o.cosmeticsReadErr with
  | some e => ⟨⟨500, errBodyOf e⟩, store, []⟩
  | none => ⟨⟨200, .arr store.cosmetics⟩, store, []⟩

/-- The row built by `sync_user` (line 108): `role` is always the literal
`'user'`; `email` is `user.email || body.email || ''`; `name` is
`user.user_metadata?.full_name || user.email?.split('@')[0]` and may be
`undefined` (then the column is omitted from the upsert payload). -/
def syncRowOf (u : AuthUser) (body : Option JVal) : UserRow :=
  { id := u.id
  , email := match jsOrO (u.email.map JVal.str)
                    (jsOrO ((jsBodyOr body).getField "email") (some (.str ""))) with
             | some v => v
             | none => .str ""
  , role := "user"
  , name := jsOrO (u.fullName.map JVal.str)
                  (u.email.map (fun e => JVal.str (localPart e))) }

/-- Modelled from the spec: the external data service's single-row
upsert-by-key into `users` (Postgres `INSERT … ON CONFLICT (id) DO UPDATE`,
the client's default since `ignoreDuplicates` is not set): a row with the
same id is overwritten on the supplied columns — an omitted `name` column
leaves the stored name — otherwise the row is appended. -/
def usersUpsert (row : UserRow) : List UserRow → List UserRow
  | [] => [row]
  | r :: rs =>
    if r.id = row.id then
      { id := row.id, email := row.email, role := row.role,
        name := match row.name with
                | some n => some n
                | none => r.name } :: rs
    else r :: usersUpsert row rs

/-- `POST supabase/data/sync_user` (lines 97–112). -/
def syncUser (req_authorization : Option String) (req_body : Option JVal)
    (o : Oracle) (store : Store) : HResult :=
  match extractToken req_authorization with
  | none => ⟨⟨400, errBody "Missing token"⟩, store, []⟩
  | some token =>
    match o.getUser with
    | .err _ => ⟨⟨401, errBody "Invalid token"⟩, store, [token]⟩
    | .okNone => ⟨⟨404, errBody "User not found"⟩, store, [token]⟩
    | .okUser u =>
      let row := syncRowOf u req_body
      match o.usersUpsertErr with
      | some e => ⟨⟨500, errBodyOf e⟩, store, [token]⟩
      | none =>
        ⟨⟨200, okBody⟩,
         { settings := store.settings, tutorials := store.tutorials,
           cosmetics := store.cosmetics, users := usersUpsert row store.users },
         [token]⟩

/-- The JSON object serialization of a stored `users` row (NULL columns
serialize as JSON null). -/
def userRowJson (r : UserRow) : JVal :=
  .obj [("id", .str r.id), ("email", r.email), ("role", .str r.role),
        ("name", match r.name with
                 | some n => n
                 | none => .null)]

/-- The derived default returned by `me` when no row is stored (line 124):
an undefined `email` is dropped by JSON serialization. -/
def meDefault (u : AuthUser) : JVal :=
  .obj ((match u.email with
         | some e => [("id", JVal.str u.id), ("email", JVal.str e)]
         | none => [("id", JVal.str u.id)]) ++
        [("role", .str "user"), ("name", .str (jsOrS (u.email.map localPart) "User"))])

/-- `GET supabase/data/me` (lines 115–125).  A null `user` in a successful
`getUser` makes line 121's `userData.user.id` throw a `TypeError`, caught
by the outer `catch` into a 500.  `maybeSingle` is modelled as the first
stored row with the identity's id (the table key is unique). -/
def meRoute (req_authorization : Option String) (o : Oracle) (store : Store) : HResult :=
  match extractToken req_authorization with
  | none => ⟨⟨401, errBody "Not authenticated"⟩, store, []⟩
  | some token =>
    match o.getUser with
    | .err _ => ⟨⟨401, errBody "Invalid token"⟩, store, [token]⟩
    | .okNone =>
      ⟨⟨500, errBody "Cannot read properties of null (reading 'id')"⟩, store, [token]⟩
    | .okUser u =>
      match o.meSelectErr with
      | some e => ⟨⟨500, errBodyOf e⟩, store, [token]⟩
      | none =>
        match store.users.find? (fun r => r.id == u.id) with
        | some row => ⟨⟨200, userRowJson row⟩, store, [token]⟩
        | none => ⟨⟨200, meDefault u⟩, store, [token]⟩

/-- `Array.isArray(payload) ? payload : []` — the record list of a
tutorials/cosmetics update. -/
def payloadArr (body : JVal) : List JVal :=
  match body.getField "payload" with
  | some (.arr xs) => xs
  | _ => []

/-- `Array.isArray(payload) ? payload[0] : payload` (line 150). -/
def settingsRowOf (payload : Option JVal) : Option JVal :=
  match payload with
  | some (.arr xs) => xs.get? 0
  | other => other

/-- The fields contributed by a JavaScript object spread `{...v}`: the
fields of an object, nothing for `undefined`/`null`/numbers/booleans (the
index-keyed character fields a string spread would contribute are not
modelled; no claim reaches them). -/
def spreadFields : Option JVal → List (String × JVal)
  | some (.obj fs) => fs
  | _ => []

/-- A JavaScript object literal `{ ...base, ...extra }`: later keys win. -/
def objMerge (base extra : List (String × JVal)) : List (String × JVal) :=
  base.filter (fun p => !(extra.any (fun q => q.1 == p.1))) ++ extra

/-- The integer `id` key of a settings row, if any. -/
def rowIdKey (r : JVal) : Option Int :=
  match r.getField "id" with
  | some (.num n) => some n
  | _ => none

/-- Modelled from the spec: the external store's upsert-by-`id` into the
singleton `settings` table — replace the row with the same `id` key,
otherwise append. -/
def settingsUpsert (row : JVal) (rows : List JVal) : List JVal :=
  if rows.any (fun r => rowIdKey r == rowIdKey row) then
    rows.map (fun r => if rowIdKey r == rowIdKey row then row else r)
  else rows ++ [row]

/-- The update dispatch of `admin/update` after the role gate
(lines 142–178), keyed on the body's `type` discriminator. -/
def adminDispatch (req_body : Option JVal) (o : Oracle) (store : Store)
    (token : String) : HResult :=
  let body := jsBodyOr req_body
  match body.getField "type" with
  | none => ⟨⟨400, errBody "Missing type"⟩, store, [token]⟩
  | some t =>
    if jsTruthy t then
      match t with
      | .str "site" =>
        match o.siteUpsertErr with
        | some e => ⟨⟨500, errBodyOf e⟩, store, [token]⟩
        | none =>
          let merged := JVal.obj (objMerge [("id", JVal.num 1)]
                                  (spreadFields (settingsRowOf (body.getField "payload"))))
          ⟨⟨200, o.siteUpsertData⟩,
           { settings := settingsUpsert merged store.settings,
             tutorials := store.tutorials, cosmetics := store.cosmetics,
             users := store.users },
           [token]⟩
      | .str "tutorials" =>
        let arr := payloadArr body
        let store1 : Store :=
          match o.deleteErr with
          | none => { settings := store.settings, tutorials := [],
                      cosmetics := store.cosmetics, users := store.users }
          | some _ => store
        if arr.isEmpty then ⟨⟨200, okBody⟩, store1, [token]⟩
        else
          match o.insertErr with
          | some e => ⟨⟨500, errBodyOf e⟩, store1, [token]⟩
          | none =>
            ⟨⟨200, okBody⟩,
             { settings := store1.settings, tutorials := store1.tutorials ++ arr,
               cosmetics := store1.cosmetics, users := store1.users },
             [token]⟩
      | .str "cosmetics" =>
        let arr := payloadArr body
        let store1 : Store :=
          match o.deleteErr with
          | none => { settings := store.settings, tutorials := store.tutorials,
                      cosmetics := [], users := store.users }
          | some _ => store
        if arr.isEmpty then ⟨⟨200, okBody⟩, store1, [token]⟩
        else
          match o.insertErr with
          | some e => ⟨⟨500, errBodyOf e⟩, store1, [token]⟩
          | none =>
            ⟨⟨200, okBody⟩,
             { settings := store1.settings, tutorials := store1.tutorials,
               cosmetics := store1.cosmetics ++ arr, users := store1.users },
             [token]⟩
      | _ => ⟨⟨400, errBody "Unknown update type"⟩, store, [token]⟩
    else ⟨⟨400, errBody "Missing type"⟩, store, [token]⟩

/-- The effective role of `admin/update` (line 139):
`row?.role || 'user'`. -/
def effRole (users : List UserRow) (uid : String) : String :=
  match users.find? (fun r => r.id == uid) with
  | some r => if r.role = "" then "user" else r.role
  | none => "user"

/-- `POST supabase/admin/update` (lines 128–179): token, identity, role
lookup, the `{admin, dev}` gate, then the typed update dispatch. -/
def adminUpdate (req_authorization : Option String) (req_body : Option JVal)
    (o : Oracle) (store : Store) : HResult :=
  match extractToken req_authorization with
  | none => ⟨⟨401, errBody "Missing token"⟩, store, []⟩
  | some token =>
    match o.getUser with
    | .err _ => ⟨⟨401, errBody "Invalid token"⟩, store, [token]⟩
    | .okNone => ⟨⟨401, errBody "Invalid token"⟩, store, [token]⟩
    | .okUser u =>
      match o.roleSelectErr with
      | some e => ⟨⟨500, errBodyOf e⟩, store, [token]⟩
      | none =>
        let role := effRole store.users u.id
        if role = "admin" || role = "dev" then adminDispatch req_body o store token
        else ⟨⟨403, errBody "Insufficient privileges"⟩, store, [token]⟩

/-- An incoming request: method, raw URL, `Authorization` header and parsed
JSON body (`none` = absent). -/
structure Req where
  method : String
  url : String
  authorization : Option String
  body : Option JVal

/-- The fixed ordered route table of the catch-all handler:
`(method, path-prefix)` in source order. -/
def routeTable : List (String × String) :=
  [("GET", "supabase/data/site"),
   ("GET", "supabase/data/tutorials"),
   ("GET", "supabase/data/cosmetics"),
   ("POST", "supabase/data/sync_user"),
   ("GET", "supabase/data/me"),
   ("POST", "supabase/admin/update")]

/-- Whether some entry of the route table matches the method and the
normalized path (exact method, string-prefix path). -/
def matchesSome (method path : String) : Bool :=
  routeTable.any (fun r => method == r.1 && strStartsWith path r.2)

/-- The catch-all handler of `api/[...supabase].js` (lines 70–186): strip
the `/api/` mount, then the first matching branch in source order, else
404. -/
def handler (req : Req) (o : Oracle) (store : Store) : HResult :=
  let path := normalizePath req.url
  if req.method == "GET" && strStartsWith path "supabase/data/site" then
    dataSite o store
  else if req.method == "GET" && strStartsWith path "supabase/data/tutorials" then
    dataTutorials o store
  else if req.method == "GET" && strStartsWith path "supabase/data/cosmetics" then
    dataCosmetics o store
  else if req.method == "POST" && strStartsWith path "supabase/data/sync_user" then
    syncUser req.authorization req.body o store
  else if req.method == "GET" && strStartsWith path "supabase/data/me" then
    meRoute req.authorization o store
  else if req.method == "POST" && strStartsWith path "supabase/admin/update" then
    adminUpdate req.authorization req.body o store
  else ⟨⟨404, errBody "Not found"⟩, store, []⟩

/-! ## Auxiliary lemmas -/

theorem listStarts_nil_iff (p : List Char) : listStarts [] p = true ↔ p = [] := by
  cases p <;> simp [listStarts]

theorem mk_toList (s : String) : String.mk s.toList = s := by
  cases s
  rfl

theorem removeFirstL_of_none (pat : List Char) :
    ∀ s, firstOccurL pat s = none → removeFirstL pat s = s := by
  intro s
  induction s with
  | nil => intro _; rfl
  | cons c s ih =>
    intro h
    unfold firstOccurL at h
    unfold removeFirstL
    by_cases hs : listStarts (c :: s) pat = true
    · simp [hs] at h
    · simp only [Bool.not_eq_true] at hs
      simp [hs] at h
      simp [hs]
      rw [ih h]

theorem removeFirstL_of_some (pat : List Char) :
    ∀ s i, firstOccurL pat s = some i →
      removeFirstL pat s = s.take i ++ s.drop (i + pat.length) := by
  intro s
  induction s with
  | nil =>
    intro i h
    unfold firstOccurL at h
    split at h
    · simp [removeFirstL]
    · simp at h
  | cons c s ih =>
    intro i h
    unfold firstOccurL at h
    split at h
    · rename_i hs
      injection h with h0
      subst h0
      unfold removeFirstL
      simp [hs]
    · rename_i hs
      simp only [Bool.not_eq_true] at hs
      cases hfo : firstOccurL pat s with
      | none => rw [hfo] at h; simp at h
      | some j =>
        rw [hfo] at h
        simp only [Option.map_some'] at h
        injection h with h0
        subst h0
        unfold removeFirstL
        simp only [hs, if_false]
        rw [ih j hfo]
        rw [List.take_succ_cons, Nat.add_right_comm, List.drop_succ_cons]
        rfl

theorem firstOccurL_least (pat : List Char) :
    ∀ s i, firstOccurL pat s = some i →
      listStarts (s.drop i) pat = true ∧
        ∀ j, j < i → listStarts (s.drop j) pat = false := by
  intro s
  induction s with
  | nil =>
    intro i h
    unfold firstOccurL at h
    split at h
    · rename_i hs
      injection h with h0
      subst h0
      exact ⟨hs, fun j hj => absurd hj (by omega)⟩
    · simp at h
  | cons c s ih =>
    intro i h
    unfold firstOccurL at h
    split at h
    · rename_i hs
      injection h with h0
      subst h0
      exact ⟨hs, fun j hj => absurd hj (by omega)⟩
    · rename_i hs
      simp only [Bool.not_eq_true] at hs
      cases hfo : firstOccurL pat s with
      | none => rw [hfo] at h; simp at h
      | some j =>
        rw [hfo] at h
        simp only [Option.map_some'] at h
        injection h with h0
        subst h0
        obtain ⟨h1, h2⟩ := ih j hfo
        refine ⟨by simpa [List.drop_succ_cons] using h1, ?_⟩
        intro k hk
        cases k with
        | zero => simpa using hs
        | succ k =>
          rw [List.drop_succ_cons]
          exact h2 k (by omega)

theorem listStarts_length_trans :
    ∀ (s p q : List Char), listStarts s p = true → listStarts s q = true →
      p.length ≤ q.length → listStarts q p = true := by
  intro s
  induction s with
  | nil =>
    intro p q hp _ _
    rw [(listStarts_nil_iff p).mp hp]
    cases q <;> simp [listStarts]
  | cons c s ih =>
    intro p q hp hq hlen
    cases p with
    | nil => cases q <;> simp [listStarts]
    | cons a p =>
      cases q with
      | nil => simp at hlen
      | cons b q =>
        simp only [listStarts, Bool.and_eq_true, beq_iff_eq] at hp hq ⊢
        obtain ⟨hca, hsp⟩ := hp
        obtain ⟨hcb, hsq⟩ := hq
        subst hca
        subst hcb
        exact ⟨rfl, ih p q hsp hsq (by simpa using hlen)⟩

theorem strStarts_excl (s p q : String) (hp : strStartsWith s p = true)
    (h1 : listStarts q.toList p.toList = false)
    (h2 : listStarts p.toList q.toList = false) :
    strStartsWith s q = false := by
  by_contra h
  simp only [Bool.not_eq_false] at h
  unfold strStartsWith at hp h
  rcases Nat.le_total p.toList.length q.toList.length with hle | hle
  · rw [listStarts_length_trans s.toList p.toList q.toList hp h hle] at h1
    exact absurd h1 (by decide)
  · rw [listStarts_length_trans s.toList q.toList p.toList h hp hle] at h2
    exact absurd h2 (by decide)

theorem admin_not_sync (s : String)
    (h : strStartsWith s "supabase/admin/update" = true) :
    strStartsWith s "supabase/data/sync_user" = false :=
  strStarts_excl s "supabase/admin/update" "supabase/data/sync_user" h
    (by decide) (by decide)

theorem me_not_site (s : String)
    (h : strStartsWith s "supabase/data/me" = true) :
    strStartsWith s "supabase/data/site" = false :=
  strStarts_excl s "supabase/data/me" "supabase/data/site" h (by decide) (by decide)

theorem me_not_tutorials (s : String)
    (h : strStartsWith s "supabase/data/me" = true) :
    strStartsWith s "supabase/data/tutorials" = false :=
  strStarts_excl s "supabase/data/me" "supabase/data/tutorials" h (by decide) (by decide)

theorem me_not_cosmetics (s : String)
    (h : strStartsWith s "supabase/data/me" = true) :
    strStartsWith s "supabase/data/cosmetics" = false :=
  strStarts_excl s "supabase/data/me" "supabase/data/cosmetics" h (by decide) (by decide)

theorem handler_site (req : Req) (o : Oracle) (store : Store)
    (hm : req.method = "GET")
    (hp : strStartsWith (normalizePath req.url) "supabase/data/site" = true) :
    handler req o store = dataSite o store := by
  unfold handler
  simp [hm, hp]

theorem handler_sync (req : Req) (o : Oracle) (store : Store)
    (hm : req.method = "POST")
    (hp : strStartsWith (normalizePath req.url) "supabase/data/sync_user" = true) :
    handler req o store = syncUser req.authorization req.body o store := by
  unfold handler
  simp [hm, hp]

theorem handler_me (req : Req) (o : Oracle) (store : Store)
    (hm : req.method = "GET")
    (hp : strStartsWith (normalizePath req.url) "supabase/data/me" = true) :
    handler req o store = meRoute req.authorization o store := by
  have h1 := me_not_site _ hp
  have h2 := me_not_tutorials _ hp
  have h3 := me_not_cosmetics _ hp
  unfold handler
  simp [hm, hp, h1, h2, h3]

theorem handler_admin (req : Req) (o : Oracle) (store : Store)
    (hm : req.method = "POST")
    (hp : strStartsWith (normalizePath req.url) "supabase/admin/update" = true) :
    handler req o store = adminUpdate req.authorization req.body o store := by
  have h1 := admin_not_sync _ hp
  unfold handler
  simp [hm, hp, h1]

/-! ## Claims about the completion proxy (C5, C6, C9) -/

/-- C9: a request to the completion proxy whose method is not POST is
answered 405 `{error:'Method not allowed'}` for every body, credential and
upstream behaviour, and the upstream provider is never called. -/
theorem ai_method_guard (m : String) (message : Option JVal)
    (apiKey : Option String) (up : Upstream) (h : m ≠ "POST") :
    aiHandler m message apiKey up =
      ⟨⟨405, errBody "Method not allowed"⟩, false⟩ := by
  unfold aiHandler
  simp [h]

/-- Witness for C9 at method GET. -/
theorem ai_method_guard_witness :
    aiHandler "GET" none none (.ok .null) =
      ⟨⟨405, errBody "Method not allowed"⟩, false⟩ :=
  ai_method_guard "GET" none none (.ok .null) (by decide)

/-- C5: an absent, empty, or non-string `message` yields 400
`{error:'Invalid message'}`; a missing (unset or empty) provider credential
yields a 500 `ConfigurationError`; a provider-side failure yields a 500
`UpstreamError` carrying the provider's raw error body in `details`; and
the two 500 bodies are distinguishable (`error` fields differ, only the
upstream one has `details`). -/
theorem completion_proxy_errors (message : Option JVal) (apiKey : Option String)
    (up : Upstream) (text : String) :
    ((message = none ∨ message = some (.str "") ∨ (∀ s, message ≠ some (.str s))) →
       aiHandler "POST" message apiKey up = ⟨⟨400, errBody "Invalid message"⟩, false⟩) ∧
    ((∃ s, s ≠ "" ∧ message = some (.str s)) → (apiKey = none ∨ apiKey = some "") →
       aiHandler "POST" message apiKey up =
         ⟨⟨500, errBody "OpenAI key not set in environment variables"⟩, false⟩) ∧
    ((∃ s, s ≠ "" ∧ message = some (.str s)) → (∃ k, k ≠ "" ∧ apiKey = some k) →
       aiHandler "POST" message apiKey (.httpErr text) =
         ⟨⟨500, .obj [("error", .str "OpenAI error"), ("details", .str text)]⟩, true⟩) ∧
    ((errBody "OpenAI key not set in environment variables").getField "details" = none ∧
     (JVal.obj [("error", .str "OpenAI error"), ("details", .str text)]).getField "details"
       = some (.str text) ∧
     (JVal.obj [("error", .str "OpenAI error"), ("details", .str text)]).getField "error"
       ≠ (errBody "OpenAI key not set in environment variables").getField "error") := by
  refine ⟨?_, ?_, ?_, rfl, rfl, ?_⟩
  · intro hm
    rcases hm with hm | hm | hm
    · subst hm; rfl
    · subst hm; rfl
    · unfold aiHandler
      cases message with
      | none => rfl
      | some v =>
        cases v with
        | str s => exact absurd rfl (hm s)
        | null => rfl
        | bool b => rfl
        | num n => rfl
        | arr xs => rfl
        | obj fs => rfl
  · rintro ⟨s, hs, rfl⟩ hk
    rcases hk with rfl | rfl <;> simp [aiHandler, hs]
  · rintro ⟨s, hs, rfl⟩ ⟨k, hk, rfl⟩
    simp [aiHandler, hs, hk]
  · intro h
    simp only [JVal.getField, errBody, List.find?, Option.map] at h
    injection h with h1
    injection h1 with h2
    exact absurd h2 (by decide)

/-- Witness for C5: the three error shapes at concrete inputs. -/
theorem completion_proxy_errors_witness :
    aiHandler "POST" (some (.str "")) (some "k") (.httpErr "boom") =
      ⟨⟨400, errBody "Invalid message"⟩, false⟩ ∧
    aiHandler "POST" (some (.str "hello")) none (.httpErr "boom") =
      ⟨⟨500, errBody "OpenAI key not set in environment variables"⟩, false⟩ ∧
    aiHandler "POST" (some (.str "hello")) (some "k") (.httpErr "boom") =
      ⟨⟨500, .obj [("error", .str "OpenAI error"), ("details", .str "boom")]⟩, true⟩ :=
  ⟨(completion_proxy_errors (some (.str "")) (some "k") (.httpErr "boom") "boom").1
     (Or.inr (Or.inl rfl)),
   ((completion_proxy_errors (some (.str "hello")) none (.httpErr "boom") "boom").2).1
     ⟨"hello", by decide, rfl⟩ (Or.inl rfl),
   ((completion_proxy_errors (some (.str "hello")) (some "k") (.httpErr "boom") "boom").2).2.1
     ⟨"hello", by decide, rfl⟩ ⟨"k", by decide, rfl⟩⟩

/-- A provider body in which `choices[0].message.content` is present but
empty while `choices[0].text` is `"hi"`. -/
def jsonEmptyContent : JVal :=
  .obj [("choices", .arr [.obj
    [("message", .obj [("content", .str "")]), ("text", .str "hi")]])]

/-- C6 counterexample: `choices[0].message.content` is PRESENT (the empty
string), so the claim says the reply equals it (`""`); but the code's `||`
falls through on the falsy empty string and the reply is the alternate
field `"hi"`. -/
theorem reply_ignores_present_empty_content :
    contentPath jsonEmptyContent = some (.str "") ∧
    (aiHandler "POST" (some (.str "hello")) (some "k")
        (.ok jsonEmptyContent)).resp.body.getField "reply" = some (.str "hi") :=
  ⟨rfl, rfl⟩

/-- The amended reply-extraction rule, stated from the spec's words as
corrected: prefer the structured completion field when present AND truthy
(in particular non-empty), else the alternate field when present and
truthy, else the empty string. -/
def replySpec (json : JVal) : JVal :=
  match contentPath json with
  | some v =>
    if jsTruthy v then v
    else
      match textPath json with
      | some w => if jsTruthy w then w else .str ""
      | none => .str ""
  | none =>
    match textPath json with
    | some w => if jsTruthy w then w else .str ""
    | none => .str ""

theorem replyOf_eq_replySpec (j : JVal) : replyOf j = replySpec j := by
  unfold replyOf replySpec jsOrO
  cases hc : contentPath j with
  | none =>
    cases ht : textPath j with
    | none => rfl
    | some w => by_cases hw : jsTruthy w = true <;> simp [hw]
  | some v =>
    by_cases hv : jsTruthy v = true
    · simp [hv]
    · simp only [Bool.not_eq_true] at hv
      simp only [hv, if_false]
      cases ht : textPath j with
      | none => rfl
      | some w => by_cases hw : jsTruthy w = true <;> simp [hw]

/-- C6 amended: for every successful provider response whose JSON body is
not null, the proxy answers 200 `{reply, raw}` with `reply` given by the
truthiness-preferring extraction `replySpec` — so a body lacking both
fields yields `reply = ""` and never a failure.  (A JSON-null body is the
one exception: line 39's `json.choices` throws and the catch yields 500.) -/
theorem reply_extraction (s k : String) (json : JVal)
    (hs : s ≠ "") (hk : k ≠ "") (hj : json ≠ .null) :
    aiHandler "POST" (some (.str s)) (some k) (.ok json) =
      ⟨⟨200, .obj [("reply", replySpec json), ("raw", json)]⟩, true⟩ := by
  rw [← replyOf_eq_replySpec]
  unfold aiHandler
  simp only [bne_self_eq_false, Bool.false_eq_true, if_false, hs, hk, ite_false]

/-- Witness for C6 (amended) at a body with neither field present. -/
theorem reply_extraction_witness :
    aiHandler "POST" (some (.str "hello")) (some "k") (.ok (.obj [])) =
      ⟨⟨200, .obj [("reply", replySpec (.obj [])), ("raw", .obj [])]⟩, true⟩ :=
  reply_extraction "hello" "k" (.obj []) (by decide) (by decide) (by intro h; cases h)

/-! ## Claims about the catch-all router -/

/-- A benign oracle: the identity `u1` (email `a@b.c`) resolves and every
data-service call succeeds. -/
def oracleOk : Oracle :=
  { getUser := .okUser ⟨"u1", some "a@b.c", none⟩, settingsErr := none,
    tutorialsReadErr := none, cosmeticsReadErr := none, meSelectErr := none,
    roleSelectErr := none, usersUpsertErr := none, siteUpsertErr := none,
    siteUpsertData := .null, deleteErr := none, insertErr := none }

/-- A stored `users` row for `u1` with an administratively-set role. -/
def adminRow : UserRow := ⟨"u1", .str "a@b.c", "admin", none⟩

/-- A store with one tutorial and the `u1` admin profile. -/
def storeAdmin : Store := ⟨[], [.obj [("title", .str "Old")]], [], [adminRow]⟩

/-- The empty store. -/
def storeEmpty : Store := ⟨[], [], [], []⟩

/-- An authorized tutorials-replace request. -/
def reqTut : Req :=
  ⟨"POST", "/api/supabase/admin/update", some "Bearer tok",
   some (.obj [("type", .str "tutorials"),
               ("payload", .arr [.obj [("title", .str "A")]])])⟩

/-- A `sync_user` request with a bearer token. -/
def reqSyncTok : Req :=
  ⟨"POST", "/api/supabase/data/sync_user", some "Bearer tok", none⟩

/-- C7: a GET on the site-settings read route with an empty settings store
(and no injected service failure) succeeds with 200 and the fixed default
object, rather than failing. -/
theorem site_read_default (req : Req) (o : Oracle) (store : Store)
    (hm : req.method = "GET")
    (hp : strStartsWith (normalizePath req.url) "supabase/data/site" = true)
    (hs : store.settings = []) (he : o.settingsErr = none) :
    handler req o store =
      ⟨⟨200, .obj [("title", .str "Gorilla Hub"), ("about", .str "Welcome")]⟩,
       store, []⟩ := by
  rw [handler_site req o store hm hp]
  unfold dataSite settingsSingle
  rw [he, hs]
  rfl

/-- Witness for C7. -/
theorem site_read_default_witness :
    handler ⟨"GET", "/api/supabase/data/site", none, none⟩ oracleOk storeEmpty =
      ⟨⟨200, .obj [("title", .str "Gorilla Hub"), ("about", .str "Welcome")]⟩,
       storeEmpty, []⟩ :=
  site_read_default _ oracleOk storeEmpty rfl (by decide) rfl rfl

/-- C8: a request matched by no entry of the fixed route table (exact
method, prefix path, after stripping the `/api` mount) is answered 404
`{error:'Not found'}`, whatever its authentication state, oracle and store,
and the store is untouched. -/
theorem unmatched_not_found (req : Req) (o : Oracle) (store : Store)
    (h : matchesSome req.method (normalizePath req.url) = false) :
    handler req o store = ⟨⟨404, errBody "Not found"⟩, store, []⟩ := by
  simp only [matchesSome, routeTable, List.any_cons, List.any_nil,
    Bool.or_eq_false_iff] at h
  obtain ⟨h1, h2, h3, h4, h5, h6, -⟩ := h
  unfold handler
  simp [h1, h2, h3, h4, h5, h6]

/-- Witness for C8: an unmatched method on a data path, carrying a token. -/
theorem unmatched_not_found_witness :
    handler ⟨"DELETE", "/api/supabase/data/site", some "Bearer t", none⟩
        oracleOk storeAdmin =
      ⟨⟨404, errBody "Not found"⟩, storeAdmin, []⟩ :=
  unmatched_not_found _ oracleOk storeAdmin (by decide)

/-- C4: a write-route request carrying no bearer token is rejected —
`sync_user` with 400 missing-token, `admin/update` with 401 — before any
mutation: the store is returned unchanged and identity resolution is never
invoked. -/
theorem no_token_rejected (req : Req) (o : Oracle) (store : Store)
    (ht : extractToken req.authorization = none) :
    (req.method = "POST" →
      strStartsWith (normalizePath req.url) "supabase/data/sync_user" = true →
      handler req o store = ⟨⟨400, errBody "Missing token"⟩, store, []⟩) ∧
    (req.method = "POST" →
      strStartsWith (normalizePath req.url) "supabase/admin/update" = true →
      handler req o store = ⟨⟨401, errBody "Missing token"⟩, store, []⟩) := by
  constructor
  · intro hm hp
    rw [handler_sync req o store hm hp]
    unfold syncUser
    rw [ht]
  · intro hm hp
    rw [handler_admin req o store hm hp]
    unfold adminUpdate
    rw [ht]

/-- Witness for C4: both write routes, with the Authorization header
absent, on a non-trivial store. -/
theorem no_token_rejected_witness :
    handler ⟨"POST", "/api/supabase/data/sync_user", none, none⟩ oracleOk storeAdmin =
      ⟨⟨400, errBody "Missing token"⟩, storeAdmin, []⟩ ∧
    handler ⟨"POST", "/api/supabase/admin/update", none, none⟩ oracleOk storeAdmin =
      ⟨⟨401, errBody "Missing token"⟩, storeAdmin, []⟩ :=
  ⟨(no_token_rejected ⟨"POST", "/api/supabase/data/sync_user", none, none⟩
      oracleOk storeAdmin rfl).1 rfl (by decide),
   (no_token_rejected ⟨"POST", "/api/supabase/admin/update", none, none⟩
      oracleOk storeAdmin rfl).2 rfl (by decide)⟩

/-- A store whose only profile row for `u1` has role `user`. -/
def storeUser : Store := ⟨[], [], [], [⟨"u1", .str "a@b.c", "user", none⟩]⟩

/-- C3: on `admin/update` with a valid token and a successful role lookup:
a stored role `user` is rejected 403 with the store unchanged; stored roles
`admin` and `dev` are accepted (the request proceeds to the update
dispatch); an identity with no profile row is treated as role `user` and
rejected 403 rather than erroring. -/
theorem write_role_gate (req : Req) (o : Oracle) (store : Store)
    (u : AuthUser) (t : String)
    (hm : req.method = "POST")
    (hp : strStartsWith (normalizePath req.url) "supabase/admin/update" = true)
    (ht : extractToken req.authorization = some t)
    (hu : o.getUser = .okUser u)
    (he : o.roleSelectErr = none) :
    (∀ row, store.users.find? (fun r => r.id == u.id) = some row →
       row.role = "user" →
       handler req o store = ⟨⟨403, errBody "Insufficient privileges"⟩, store, [t]⟩) ∧
    (∀ row, store.users.find? (fun r => r.id == u.id) = some row →
       row.role = "admin" ∨ row.role = "dev" →
       handler req o store = adminDispatch req.body o store t) ∧
    (store.users.find? (fun r => r.id == u.id) = none →
       handler req o store = ⟨⟨403, errBody "Insufficient privileges"⟩, store, [t]⟩) := by
  rw [handler_admin req o store hm hp]
  unfold adminUpdate effRole
  refine ⟨?_, ?_, ?_⟩
  · intro row hrow hrole
    simp only [ht, hu, he, hrow, hrole]
    simp
  · intro row hrow hrole
    rcases hrole with hr | hr <;> simp only [ht, hu, he, hrow, hr] <;> simp
  · intro hnone
    simp only [ht, hu, he, hnone]
    simp

/-- Witness for C3: `u1` with stored role `admin` is accepted; with stored
role `user` it is rejected 403. -/
theorem write_role_gate_witness :
    handler reqTut oracleOk storeAdmin =
      adminDispatch reqTut.body oracleOk storeAdmin "tok" ∧
    handler reqTut oracleOk storeUser =
      ⟨⟨403, errBody "Insufficient privileges"⟩, storeUser, ["tok"]⟩ :=
  ⟨(write_role_gate reqTut oracleOk storeAdmin ⟨"u1", some "a@b.c", none⟩ "tok"
      rfl (by decide) (by decide) rfl rfl).2.1 adminRow rfl (Or.inl rfl),
   (write_role_gate reqTut oracleOk storeUser ⟨"u1", some "a@b.c", none⟩ "tok"
      rfl (by decide) (by decide) rfl rfl).1 ⟨"u1", .str "a@b.c", "user", none⟩
      rfl rfl⟩

/-- `oracleOk` with a failing bulk insert. -/
def oracleInsFail : Oracle :=
  { oracleOk with insertErr := some ⟨"XX000", "insert failed"⟩ }

/-- `oracleOk` with a failing delete AND a failing bulk insert. -/
def oracleDelInsFail : Oracle :=
  { oracleInsFail with deleteErr := some ⟨"XX000", "delete failed"⟩ }

/-- C1 counterexample: same request, same store, same failing insert; in
one run the delete succeeds, in the other the delete fails — the reported
responses are identical (only the resulting stores differ), so the
insert-failed-after-delete outcome is NOT distinguishable from a
delete-step failure. -/
theorem replace_failure_not_distinguishable :
    (handler reqTut oracleInsFail storeAdmin).resp =
      (handler reqTut oracleDelInsFail storeAdmin).resp ∧
    (handler reqTut oracleInsFail storeAdmin).store.tutorials = [] ∧
    (handler reqTut oracleDelInsFail storeAdmin).store.tutorials =
      [.obj [("title", .str "Old")]] :=
  ⟨rfl, rfl, rfl⟩

/-- A failing bulk insert on a tutorials/cosmetics update is reported as a
plain 500 carrying the insert error, for every oracle (delete outcome
included). -/
theorem adminDispatch_insert_fail (req_body : Option JVal) (o : Oracle)
    (store : Store) (t : String) (e : DbError)
    (hty : (jsBodyOr req_body).getField "type" = some (.str "tutorials") ∨
           (jsBodyOr req_body).getField "type" = some (.str "cosmetics"))
    (hin : o.insertErr = some e)
    (harr : (payloadArr (jsBodyOr req_body)).isEmpty = false) :
    (adminDispatch req_body o store t).resp = ⟨500, errBodyOf e⟩ := by
  rcases hty with hty | hty <;>
    (unfold adminDispatch; simp only [hty]; simp [jsTruthy, harr, hin])

/-- C1 amended: the collection replacer never inspects the delete step's
outcome — for a tutorials or cosmetics update the response is identical for
every delete outcome, and a failing bulk insert of a non-empty payload is
reported as a plain 500 carrying the insert error whether or not the delete
succeeded (no `WriteFailed(partial)` distinction exists in the code). -/
theorem replace_delete_outcome_invisible (req_body : Option JVal) (o : Oracle)
    (store : Store) (t : String) (e : DbError) (d₁ d₂ : Option DbError)
    (hty : (jsBodyOr req_body).getField "type" = some (.str "tutorials") ∨
           (jsBodyOr req_body).getField "type" = some (.str "cosmetics"))
    (hin : o.insertErr = some e)
    (harr : payloadArr (jsBodyOr req_body) ≠ []) :
    (adminDispatch req_body { o with deleteErr := d₁ } store t).resp =
      (adminDispatch req_body { o with deleteErr := d₂ } store t).resp ∧
    (adminDispatch req_body { o with deleteErr := d₁ } store t).resp =
      ⟨500, errBodyOf e⟩ := by
  have harr' : (payloadArr (jsBodyOr req_body)).isEmpty = false := by
    cases hq : payloadArr (jsBodyOr req_body) with
    | nil => exact absurd hq harr
    | cons a l => rfl
  have h1 := adminDispatch_insert_fail req_body { o with deleteErr := d₁ } store t e hty hin harr'
  have h2 := adminDispatch_insert_fail req_body { o with deleteErr := d₂ } store t e hty hin harr'
  exact ⟨h1.trans h2.symm, h1⟩

/-- Witness for C1 (amended): the insert error is what is reported even
when the delete also failed. -/
theorem replace_delete_outcome_invisible_witness :
    (adminDispatch reqTut.body
        { oracleInsFail with deleteErr := some ⟨"XX000", "delete failed"⟩ }
        storeAdmin "tok").resp = ⟨500, errBodyOf ⟨"XX000", "insert failed"⟩⟩ :=
  (replace_delete_outcome_invisible reqTut.body oracleInsFail
      storeAdmin "tok" ⟨"XX000", "insert failed"⟩
      (some ⟨"XX000", "delete failed"⟩) none
      (Or.inl rfl) rfl (by intro hq; exact List.noConfusion hq)).2

theorem usersUpsert_countP (row : UserRow) :
    ∀ l : List UserRow, l.countP (fun r => r.id == row.id) ≤ 1 →
      (usersUpsert row l).countP (fun r => r.id == row.id) = 1 := by
  intro l
  induction l with
  | nil =>
    intro _
    simp [usersUpsert, List.countP_cons]
  | cons a rs ih =>
    intro h
    unfold usersUpsert
    rw [List.countP_cons] at h
    by_cases ha : a.id = row.id
    · simp only [ha, if_true, ite_true, List.countP_cons]
      simp only [ha, beq_self_eq_true, if_true, ite_true] at h ⊢
      omega
    · simp only [ha, if_false, ite_false, List.countP_cons]
      have hb : (a.id == row.id) = false := by
        simpa using ha
      rw [hb] at h
      simp only [hb, if_false, ite_false]
      simpa using ih (by omega)

theorem usersUpsert_role (row : UserRow) :
    ∀ l : List UserRow, l.countP (fun r => r.id == row.id) ≤ 1 →
      ∀ r, r ∈ usersUpsert row l → r.id = row.id → r.role = row.role := by
  intro l
  induction l with
  | nil =>
    intro _ r hr _
    simp [usersUpsert] at hr
    subst hr
    rfl
  | cons a rs ih =>
    intro h r hr hid
    unfold usersUpsert at hr
    rw [List.countP_cons] at h
    by_cases ha : a.id = row.id
    · simp only [ha, if_true, ite_true, List.mem_cons] at hr
      rcases hr with hr | hr
      · subst hr
        rfl
      · exfalso
        simp only [ha, beq_self_eq_true, if_true, ite_true] at h
        have hpos : 0 < rs.countP (fun x => x.id == row.id) :=
          List.countP_pos_iff.mpr ⟨r, hr, by simp [hid]⟩
        omega
    · simp only [ha, if_false, ite_false, List.mem_cons] at hr
      rcases hr with hr | hr
      · subst hr
        exact absurd hid ha
      · have hb : (a.id == row.id) = false := by
          simpa using ha
        rw [hb] at h
        exact ih (by omega) r hr hid

/-- C2 counterexample: the store already holds the `u1` row with an
administratively-set role `admin`; a further `sync_user` call for `u1`
overwrites it — the stored role is reset to `user`, so the second call does
NOT leave an already-stored role unchanged. -/
theorem sync_overwrites_stored_role :
    storeAdmin.users.map UserRow.role = ["admin"] ∧
    (handler reqSyncTok oracleOk storeAdmin).store.users.map UserRow.role =
      ["user"] :=
  ⟨rfl, rfl⟩

/-- C2 amended: a successful `sync_user` leaves exactly one `users` row for
the identity (given the id-key uniqueness invariant) — so calling it twice
yields exactly one stored row — but the upsert overwrites on conflict: the
surviving row's role is always the default `user`, even when a different
role (such as `admin`) was stored by a prior administrative action. -/
theorem sync_single_row_role_reset (req : Req) (o : Oracle) (store : Store)
    (u : AuthUser) (t : String)
    (hm : req.method = "POST")
    (hp : strStartsWith (normalizePath req.url) "supabase/data/sync_user" = true)
    (ht : extractToken req.authorization = some t)
    (hu : o.getUser = .okUser u)
    (he : o.usersUpsertErr = none)
    (hinv : store.users.countP (fun r => r.id == u.id) ≤ 1) :
    (handler req o store).store.users.countP (fun r => r.id == u.id) = 1 ∧
    ∀ r, r ∈ (handler req o store).store.users → r.id = u.id →
      r.role = "user" := by
  rw [handler_sync req o store hm hp]
  unfold syncUser
  simp only [ht, hu, he]
  exact ⟨usersUpsert_countP (syncRowOf u req.body) store.users hinv,
         fun r hr hid =>
           usersUpsert_role (syncRowOf u req.body) store.users hinv r hr hid⟩

/-- Witness for C2 (amended): syncing `u1` over the store holding the
`admin` row leaves exactly one `u1` row. -/
theorem sync_single_row_role_reset_witness :
    (handler reqSyncTok oracleOk storeAdmin).store.users.countP
        (fun r => r.id == "u1") = 1 :=
  (sync_single_row_role_reset reqSyncTok oracleOk storeAdmin
      ⟨"u1", some "a@b.c", none⟩ "tok" rfl (by decide) (by decide) rfl rfl
      (by decide)).1

/-- Every branch of the typed update dispatch calls identity resolution
exactly on the already-extracted token. -/
theorem adminDispatch_calls (b : Option JVal) (o : Oracle) (store : Store)
    (t : String) : (adminDispatch b o store t).getUserCalls = [t] := by
  unfold adminDispatch
  cases hv : (jsBodyOr b).getField "type" with
  | none => simp only [hv]
  | some tv =>
    simp only [hv]
    by_cases htr : jsTruthy tv = true
    · simp only [htr, if_true, ite_true]
      split
      · cases o.siteUpsertErr <;> rfl
      · cases hie : (payloadArr (jsBodyOr b)).isEmpty
        · simp [hie]
          cases o.insertErr <;> rfl
        · simp [hie]
      · cases hie : (payloadArr (jsBodyOr b)).isEmpty
        · simp [hie]
          cases o.insertErr <;> rfl
        · simp [hie]
      · rfl
    · simp only [Bool.not_eq_true] at htr
      simp [htr]

/-- C10: on every authenticated route, token extraction removes exactly the
FIRST literal occurrence of `'Bearer '` from the Authorization header
(verbatim when there is no occurrence), and a non-empty header without an
occurrence is passed verbatim to identity resolution (`auth.getUser`)
rather than rejected as malformed. -/
theorem bearer_extraction_first_occurrence (h : String) :
    ((firstOccurL bearerPat h.toList = none → rawToken h = h) ∧
     (∀ i, firstOccurL bearerPat h.toList = some i →
        (rawToken h).toList =
          h.toList.take i ++ h.toList.drop (i + bearerPat.length) ∧
        listStarts (h.toList.drop i) bearerPat = true ∧
        ∀ j, j < i → listStarts (h.toList.drop j) bearerPat = false)) ∧
    (h ≠ "" → firstOccurL bearerPat h.toList = none →
      ∀ req o store, req.authorization = some h →
        ((req.method = "POST" →
            strStartsWith (normalizePath req.url) "supabase/data/sync_user" = true →
            (handler req o store).getUserCalls = [h]) ∧
         (req.method = "GET" →
            strStartsWith (normalizePath req.url) "supabase/data/me" = true →
            (handler req o store).getUserCalls = [h]) ∧
         (req.method = "POST" →
            strStartsWith (normalizePath req.url) "supabase/admin/update" = true →
            (handler req o store).getUserCalls = [h]))) := by
  have hmk : ∀ l : List Char, (String.mk l).toList = l := fun _ => rfl
  refine ⟨⟨?_, ?_⟩, ?_⟩
  · intro hnone
    unfold rawToken
    rw [removeFirstL_of_none bearerPat h.toList hnone, mk_toList]
  · intro i hi
    refine ⟨?_, (firstOccurL_least bearerPat h.toList i hi).1,
            (firstOccurL_least bearerPat h.toList i hi).2⟩
    unfold rawToken
    rw [hmk, removeFirstL_of_some bearerPat h.toList i hi]
  · intro hne hnone req o store hauth
    have hraw : rawToken h = h := by
      unfold rawToken
      rw [removeFirstL_of_none bearerPat h.toList hnone, mk_toList]
    have hex : extractToken req.authorization = some h := by
      unfold extractToken
      rw [hauth]
      simp [hraw, hne]
    refine ⟨?_, ?_, ?_⟩
    · intro hm hp
      rw [handler_sync req o store hm hp]
      unfold syncUser
      simp only [hex]
      cases hg : o.getUser with
      | err m => simp only [hg]
      | okNone => simp only [hg]
      | okUser u =>
        simp only [hg]
        cases hup : o.usersUpsertErr <;> simp only [hup]
    · intro hm hp
      rw [handler_me req o store hm hp]
      unfold meRoute
      simp only [hex]
      cases hg : o.getUser with
      | err m => simp only [hg]
      | okNone => simp only [hg]
      | okUser u =>
        simp only [hg]
        cases hsel : o.meSelectErr with
        | some e => simp only [hsel]
        | none =>
          simp only [hsel]
          cases hf : store.users.find? (fun r => r.id == u.id) <;> simp only [hf]
    · intro hm hp
      rw [handler_admin req o store hm hp]
      unfold adminUpdate
      simp only [hex]
      cases hg : o.getUser with
      | err m => simp only [hg]
      | okNone => simp only [hg]
      | okUser u =>
        simp only [hg]
        cases hr : o.roleSelectErr with
        | some e => simp only [hr]
        | none =>
          simp only [hr]
          split
          · exact adminDispatch_calls req.body o store h
          · rfl

/-- Witness for C10: the header `tok-without-marker` has no `'Bearer '`
occurrence and reaches identity resolution verbatim on `sync_user`. -/
theorem bearer_extraction_first_occurrence_witness :
    (handler ⟨"POST", "/api/supabase/data/sync_user",
        some "tok-without-marker", none⟩ oracleOk storeEmpty).getUserCalls =
      ["tok-without-marker"] :=
  (((bearer_extraction_first_occurrence "tok-without-marker").2
      (by decide) (by decide)
      ⟨"POST", "/api/supabase/data/sync_user", some "tok-without-marker", none⟩
      oracleOk storeEmpty rfl).1) rfl (by decide)

end GorillaHub
